import Mathlib

/-!
Verification development for the SilkNES emulator core.

Each definition below is a shallow embedding of a function of the Rust
source (file and line references in the doc comments).  Machine integers
(`u8`, `u16`, `u32`) are modelled as `Nat`, with `% 256` / `% 65536`
wrapping written out exactly where the source uses wrapping operations.
Rust operations whose checked semantics can abort (plain `-`/`*`/`+` on
unsigned types, which panic on overflow under the debug profile that
`cargo test` uses, and explicit `panic!` calls) are modelled as `Option`,
`none` being the aborted computation.
-/

namespace SilkNES

/-! ## Arithmetic facts about `Nat` bitwise operations

The source manipulates hardware registers with `&`, `|`, `^`, `<<`, `>>`.
The lemmas in this section convert such expressions into `/`, `%`, `+`,
`*` arithmetic so that `omega` can finish the proofs about them. -/

theorem lor_mod_two_pow (a b k : Nat) : (a ||| b) % 2 ^ k = a % 2 ^ k ||| b % 2 ^ k := by
  apply Nat.eq_of_testBit_eq
  intro i
  simp only [Nat.testBit_mod_two_pow, Nat.testBit_lor]
  by_cases h : i < k <;> simp [h]

theorem land_mod_two_pow (a b k : Nat) : (a &&& b) % 2 ^ k = a % 2 ^ k &&& b % 2 ^ k := by
  apply Nat.eq_of_testBit_eq
  intro i
  simp only [Nat.testBit_mod_two_pow, Nat.testBit_land]
  by_cases h : i < k <;> simp [h]

theorem lor_div_two_pow (a b k : Nat) : (a ||| b) / 2 ^ k = a / 2 ^ k ||| b / 2 ^ k := by
  rw [← Nat.shiftRight_eq_div_pow, ← Nat.shiftRight_eq_div_pow, ← Nat.shiftRight_eq_div_pow]
  apply Nat.eq_of_testBit_eq
  intro i
  simp [Nat.testBit_shiftRight, Nat.testBit_lor]

theorem land_div_two_pow (a b k : Nat) : (a &&& b) / 2 ^ k = a / 2 ^ k &&& b / 2 ^ k := by
  rw [← Nat.shiftRight_eq_div_pow, ← Nat.shiftRight_eq_div_pow, ← Nat.shiftRight_eq_div_pow]
  apply Nat.eq_of_testBit_eq
  intro i
  simp [Nat.testBit_shiftRight, Nat.testBit_land]

/-- Splitting a bitwise `or` at bit `k` into its low and high parts. -/
theorem lor_split (k a b : Nat) :
    a ||| b = (a % 2 ^ k ||| b % 2 ^ k) + 2 ^ k * (a / 2 ^ k ||| b / 2 ^ k) := by
  have h := Nat.div_add_mod (a ||| b) (2 ^ k)
  rw [lor_mod_two_pow, lor_div_two_pow] at h
  omega

/-- Splitting a bitwise `and` at bit `k` into its low and high parts. -/
theorem land_split (k a b : Nat) :
    a &&& b = (a % 2 ^ k &&& b % 2 ^ k) + 2 ^ k * (a / 2 ^ k &&& b / 2 ^ k) := by
  have h := Nat.div_add_mod (a &&& b) (2 ^ k)
  rw [land_mod_two_pow, land_div_two_pow] at h
  omega

theorem land_two_pow_sub_one (a k : Nat) : a &&& (2 ^ k - 1) = a % 2 ^ k := by
  apply Nat.eq_of_testBit_eq
  intro i
  simp only [Nat.testBit_land, Nat.testBit_two_pow_sub_one, Nat.testBit_mod_two_pow]
  by_cases h : i < k <;> simp [h]

theorem land_1 (a : Nat) : a &&& 1 = a % 2 := land_two_pow_sub_one a 1

theorem land_3 (a : Nat) : a &&& 3 = a % 4 := land_two_pow_sub_one a 2

theorem land_7 (a : Nat) : a &&& 7 = a % 8 := land_two_pow_sub_one a 3

theorem land_15 (a : Nat) : a &&& 15 = a % 16 := land_two_pow_sub_one a 4

theorem land_31 (a : Nat) : a &&& 31 = a % 32 := land_two_pow_sub_one a 5

theorem land_255 (a : Nat) : a &&& 255 = a % 256 := land_two_pow_sub_one a 8

theorem land_1023 (a : Nat) : a &&& 1023 = a % 1024 := land_two_pow_sub_one a 10

theorem land_2047 (a : Nat) : a &&& 2047 = a % 2048 := land_two_pow_sub_one a 11

theorem land_4095 (a : Nat) : a &&& 4095 = a % 4096 := land_two_pow_sub_one a 12

theorem land_16383 (a : Nat) : a &&& 16383 = a % 16384 := land_two_pow_sub_one a 14

theorem land_32767 (a : Nat) : a &&& 32767 = a % 32768 := land_two_pow_sub_one a 15

theorem land_65535 (a : Nat) : a &&& 65535 = a % 65536 := land_two_pow_sub_one a 16

/-- A contiguous mask that starts above bit 0: `a &&& 0xFF00` keeps bits 8–15. -/
theorem land_FF00 (a : Nat) : a &&& 0xFF00 = 256 * (a / 256 % 256) := by
  have h := land_split 8 a 0xFF00
  norm_num at h
  rw [land_255] at h
  omega

theorem land_2 (a : Nat) : a &&& 2 = 2 * (a / 2 % 2) := by
  have h := land_split 1 a 2
  norm_num at h
  omega

theorem land_64 (a : Nat) : a &&& 64 = 64 * (a / 64 % 2) := by
  have h := land_split 6 a 64
  norm_num at h
  omega

theorem land_1024 (a : Nat) : a &&& 0x400 = 1024 * (a / 1024 % 2) := by
  have h := land_split 10 a 0x400
  norm_num at h
  omega

theorem land_2048 (a : Nat) : a &&& 0x800 = 2048 * (a / 2048 % 2) := by
  have h := land_split 11 a 0x800
  norm_num at h
  omega

theorem land_3E0 (a : Nat) : a &&& 0x3E0 = 32 * (a / 32 % 32) := by
  have h := land_split 5 a 0x3E0
  norm_num at h
  rw [land_31] at h
  omega

theorem land_7000 (a : Nat) : a &&& 0x7000 = 4096 * (a / 4096 % 8) := by
  have h := land_split 12 a 0x7000
  norm_num at h
  rw [land_7] at h
  omega

theorem land_7FE0 (a : Nat) : a &&& 0x7FE0 = 32 * (a / 32 % 1024) := by
  have h := land_split 5 a 0x7FE0
  norm_num at h
  rw [land_1023] at h
  omega

theorem land_30 (a : Nat) : a &&& 30 = 2 * (a / 2 % 16) := by
  have h := land_split 1 a 30
  norm_num at h
  rw [land_15] at h
  omega

theorem land_14 (a : Nat) : a &&& 14 = 2 * (a / 2 % 8) := by
  have h := land_split 1 a 14
  norm_num at h
  rw [land_7] at h
  omega

theorem land_7C1F (a : Nat) : a &&& 0x7C1F = a % 32 + 1024 * (a / 1024 % 32) := by
  have h := land_split 5 a 0x7C1F
  norm_num at h
  rw [land_31, land_3E0] at h
  omega

theorem land_7BFF (a : Nat) : a &&& 0x7BFF = a % 1024 + 2048 * (a / 2048 % 16) := by
  have h := land_split 10 a 0x7BFF
  norm_num at h
  rw [land_1023, land_30] at h
  omega

theorem land_77FF (a : Nat) : a &&& 0x77FF = a % 2048 + 4096 * (a / 4096 % 8) := by
  have h := land_split 11 a 0x77FF
  norm_num at h
  rw [land_2047, land_14] at h
  omega

theorem lor_byte (h l : Nat) (hl : l < 256) : (h <<< 8) ||| l = 256 * h + l := by
  have hs := lor_split 8 (h <<< 8) l
  rw [Nat.shiftLeft_eq] at hs
  norm_num at hs
  rw [Nat.mod_eq_of_lt hl, Nat.div_eq_of_lt hl, Nat.or_zero] at hs
  have hp : (2 : Nat) ^ 8 = 256 := by norm_num
  rw [Nat.shiftLeft_eq, hp]
  omega

/-! ## CPU (src/src/cpu.rs) -/

/-- The CPU status flags (src/src/cpu.rs lines 21-42).  Rust `#[derive(Default)]`
makes every field `false`. -/
structure Flags where
  carry : Bool
  zero : Bool
  interrupt_disable : Bool
  decimal_mode : Bool
  break_command : Bool
  overflow : Bool
  negative : Bool
deriving DecidableEq

/-- `Flags::default()` — all fields `false`. -/
def Flags.default : Flags := ⟨false, false, false, false, false, false, false⟩

/-- `Flags::to_u8` (src/src/cpu.rs lines 45-54). -/
def Flags.to_u8 (f : Flags) : Nat :=
  (f.carry.toNat <<< 0) |||
  (f.zero.toNat <<< 1) |||
  (f.interrupt_disable.toNat <<< 2) |||
  (f.decimal_mode.toNat <<< 3) |||
  (f.break_command.toNat <<< 4) |||
  (1 <<< 5) |||
  (f.overflow.toNat <<< 6) |||
  (f.negative.toNat <<< 7)

/-- `Flags::from_u8` (src/src/cpu.rs lines 56-66). -/
def Flags.from_u8 (byte : Nat) : Flags where
  carry := byte &&& (1 <<< 0) ≠ 0
  zero := byte &&& (1 <<< 1) ≠ 0
  interrupt_disable := byte &&& (1 <<< 2) ≠ 0
  decimal_mode := byte &&& (1 <<< 3) ≠ 0
  break_command := byte &&& (1 <<< 4) ≠ 0
  overflow := byte &&& (1 <<< 6) ≠ 0
  negative := byte &&& (1 <<< 7) ≠ 0

/-- The register state of `NES6502` (src/src/cpu.rs lines 69-82).  The `bus`
field (a shared trait object) is not part of the state; bus reads are passed
to the operations that need them as a `Nat → Nat` function. -/
structure NES6502 where
  a : Nat
  x : Nat
  y : Nat
  sp : Nat
  pc : Nat
  flags : Flags
  cycles : Nat
  fetched_data : Nat
  current_address_abs : Nat
  current_address_rel : Nat
  total_cycles : Nat
deriving DecidableEq

/-- `NES6502::reset` (src/src/cpu.rs lines 1170-1187): the source sets
`current_address_abs` to `0xFFFC`, reads the vector low byte there and the high
byte at the next address, zeroes the registers, sets `sp` to `0xFD`, resets the
flags to `Default::default()`, clears the helper latches and loads 8 cycles. -/
def NES6502.reset (read : Nat → Nat) (s : NES6502) : NES6502 :=
  let low := read 0xFFFC
  let high := read (0xFFFC + 1)
  { s with
    pc := (high <<< 8) ||| low
    a := 0
    x := 0
    y := 0
    sp := 0xFD
    flags := Flags.default
    current_address_abs := 0x0000
    current_address_rel := 0x0000
    fetched_data := 0x00
    cycles := 8 }

/-- The flag computation of `NES6502::cmp` (src/src/cpu.rs lines 732-740).  The
source computes `self.a - self.fetched_data` twice with Rust's plain `u8`
subtraction, which panics — aborting emulation — when `fetched_data > a` under
the overflow-checked profile that `cargo test` builds with; that aborted case
is `none`. -/
def cmp_flags (a fetched_data : Nat) (f : Flags) : Option Flags :=
  if fetched_data ≤ a then
    some { f with
      carry := decide (fetched_data ≤ a)
      zero := decide ((a - fetched_data) &&& 0x00FF = 0)
      negative := decide ((a - fetched_data) &&& 0x80 ≠ 0) }
  else
    none

/-- The `AbsoluteX` arm of `NES6502::fetch` (src/src/cpu.rs lines 397-410):
given the two operand bytes and the X register it returns the effective address
together with the number of extra cycles added by the page-boundary check. -/
def fetch_absolute_x (low high x : Nat) : Nat × Nat :=
  let base := (high <<< 8) ||| low
  let addr := (base + x) % 65536
  (addr, if addr &&& 0xFF00 ≠ high <<< 8 then 1 else 0)

/-- The `AbsoluteY` arm of `NES6502::fetch` (src/src/cpu.rs lines 412-425). -/
def fetch_absolute_y (low high y : Nat) : Nat × Nat :=
  let base := (high <<< 8) ||| low
  let addr := (base + y) % 65536
  (addr, if addr &&& 0xFF00 ≠ high <<< 8 then 1 else 0)

/-- The `IndirectIndexed` arm of `NES6502::fetch` (src/src/cpu.rs lines 454-468):
`table` is the zero-page operand byte, `mem` the bus. -/
def fetch_indirect_indexed (mem : Nat → Nat) (table y : Nat) : Nat × Nat :=
  let low := mem (table &&& 0x00FF)
  let high := mem (((table + 1) % 65536) &&& 0x00FF)
  let addr := (((high <<< 8) ||| low) + y) % 65536
  (addr, if addr &&& 0xFF00 ≠ high <<< 8 then 1 else 0)

/-- Cycle count of one STA AbsoluteX instruction: `step` dispatches opcode `0x9D`
as `sta(AbsoluteX, 5)` (src/src/cpu.rs line 298), `sta` first adds the base 5
cycles and then calls `fetch`, whose `AbsoluteX` arm adds the page-cross penalty
(lines 397-410, 1082-1087). -/
def sta_absolute_x_cycles (low high x : Nat) : Nat :=
  5 + (fetch_absolute_x low high x).2

/-- The spec's notion of the page-cross condition: the indexed effective address
lies in a different 256-byte page than the base address. -/
abbrev page_crossed (base index : Nat) : Prop :=
  (base + index) % 65536 / 256 ≠ base / 256

theorem fetch_absx_penalty (low high x : Nat) (hlow : low < 256) :
    (fetch_absolute_x low high x).2 =
      if page_crossed ((high <<< 8) ||| low) x then 1 else 0 := by
  have hbase := lor_byte high low hlow
  have h1 := land_FF00 ((((high <<< 8) ||| low) + x) % 65536)
  have h2 : high <<< 8 = 256 * high := by rw [Nat.shiftLeft_eq]; ring
  have hiff : ((((high <<< 8) ||| low) + x) % 65536 &&& 0xFF00 ≠ high <<< 8)
      ↔ page_crossed ((high <<< 8) ||| low) x := by
    unfold page_crossed
    rw [hbase] at h1 ⊢
    omega
  rw [show (fetch_absolute_x low high x).2 =
      (if (((high <<< 8) ||| low) + x) % 65536 &&& 0xFF00 ≠ high <<< 8 then 1 else 0) from rfl]
  exact if_congr hiff rfl rfl

theorem fetch_absy_penalty (low high y : Nat) (hlow : low < 256) :
    (fetch_absolute_y low high y).2 =
      if page_crossed ((high <<< 8) ||| low) y then 1 else 0 :=
  fetch_absx_penalty low high y hlow

theorem fetch_indy_penalty (mem : Nat → Nat) (table y : Nat) (hmem : ∀ i, mem i < 256) :
    (fetch_indirect_indexed mem table y).2 =
      if page_crossed
          ((mem (((table + 1) % 65536) &&& 0x00FF) <<< 8) ||| mem (table &&& 0x00FF)) y
        then 1 else 0 :=
  fetch_absx_penalty (mem (table &&& 0x00FF)) (mem (((table + 1) % 65536) &&& 0x00FF)) y
    (hmem (table &&& 0x00FF))

/-- A demonstration CPU state: power-on values of `NES6502::new`
(src/src/cpu.rs lines 85-100). -/
def cpu0 : NES6502 :=
  { a := 0, x := 0, y := 0, sp := 0xFD, pc := 0, flags := Flags.default, cycles := 0,
    fetched_data := 0, current_address_abs := 0, current_address_rel := 0, total_cycles := 0 }

/-- C2, counterexample: STA AbsoluteX with operand `0x00FF` and `X = 1` crosses a
page (`0x00FF + 1 = 0x0100`), and the instruction costs 6 cycles — the base 5
plus the penalty — although the claim says a write opcode never receives the
extra cycle. -/
theorem claim_C2_counterexample :
    sta_absolute_x_cycles 0xFF 0x00 0x01 = 6 ∧ sta_absolute_x_cycles 0xFF 0x00 0x01 ≠ 5 := by
  decide

/-- C2 (amended): for AbsoluteX, AbsoluteY and IndirectIndexed the +1 cycle
penalty is added exactly when the indexed effective address crosses a 256-byte
page boundary, for every opcode fetching through these modes — write opcodes
included: STA AbsoluteX costs its base 5 cycles plus that same penalty. -/
theorem claim_C2 (low high x y table : Nat) (mem : Nat → Nat)
    (hlow : low < 256) (hmem : ∀ i, mem i < 256) :
    ((fetch_absolute_x low high x).2 =
        if page_crossed ((high <<< 8) ||| low) x then 1 else 0)
  ∧ ((fetch_absolute_y low high y).2 =
        if page_crossed ((high <<< 8) ||| low) y then 1 else 0)
  ∧ ((fetch_indirect_indexed mem table y).2 =
        if page_crossed
            ((mem (((table + 1) % 65536) &&& 0x00FF) <<< 8) ||| mem (table &&& 0x00FF)) y
          then 1 else 0)
  ∧ (sta_absolute_x_cycles low high x =
        5 + (if page_crossed ((high <<< 8) ||| low) x then 1 else 0)) :=
  ⟨fetch_absx_penalty low high x hlow,
   fetch_absy_penalty low high y hlow,
   fetch_indy_penalty mem table y hmem,
   by rw [sta_absolute_x_cycles, fetch_absx_penalty low high x hlow]⟩

/-- C2 witness: the amended statement evaluated at the concrete page-crossing
STA AbsoluteX input `low = 0xFF`, `high = 0`, `X = 1`, zeroed memory. -/
theorem claim_C2_witness :
    ((fetch_absolute_x 0xFF 0 1).2 =
        if page_crossed ((0 <<< 8) ||| 0xFF) 1 then 1 else 0)
  ∧ ((fetch_absolute_y 0xFF 0 2).2 =
        if page_crossed ((0 <<< 8) ||| 0xFF) 2 then 1 else 0)
  ∧ ((fetch_indirect_indexed (fun _ => 0) 3 2).2 =
        if page_crossed
            (((fun (_ : Nat) => 0) (((3 + 1) % 65536) &&& 0x00FF) <<< 8) |||
              (fun (_ : Nat) => 0) (3 &&& 0x00FF)) 2
          then 1 else 0)
  ∧ (sta_absolute_x_cycles 0xFF 0 1 =
        5 + (if page_crossed ((0 <<< 8) ||| 0xFF) 1 then 1 else 0)) :=
  claim_C2 0xFF 0 1 2 3 (fun _ => 0) (by decide) (fun _ => by norm_num)

/-- C6, counterexample: after `NES6502::reset` the packed status byte is `0x20`
— `reset` restores `Flags::default()`, whose packed form sets only bit 5 — and
not `0x24` as the claim states. -/
theorem claim_C6_counterexample :
    Flags.to_u8 (NES6502.reset (fun a => if a = 0xFFFC then 0x34 else if a = 0xFFFD then 0x12 else 0) cpu0).flags = 0x20
  ∧ Flags.to_u8 (NES6502.reset (fun a => if a = 0xFFFC then 0x34 else if a = 0xFFFD then 0x12 else 0) cpu0).flags ≠ 0x24 := by
  decide

/-- C6 (amended): after `NES6502::reset`, `PC` is the little-endian word read
from `{0xFFFC, 0xFFFD}`, `SP` is `0xFD`, the packed status byte is `0x20` (only
the always-set bit 5; `reset` clears InterruptDisable along with every other
flag), and 8 cycles are loaded before the next instruction fetch. -/
theorem claim_C6 (read : Nat → Nat) (s : NES6502)
    (hl : read 0xFFFC < 256) :
    (NES6502.reset read s).pc = read 0xFFFC + 256 * read 0xFFFD
  ∧ (NES6502.reset read s).sp = 0xFD
  ∧ Flags.to_u8 (NES6502.reset read s).flags = 0x20
  ∧ (NES6502.reset read s).cycles = 8 := by
  refine ⟨?_, rfl, ?_, rfl⟩
  · show (read (0xFFFC + 1) <<< 8) ||| read 0xFFFC = read 0xFFFC + 256 * read 0xFFFD
    rw [lor_byte _ _ hl]
    norm_num
    omega
  · exact (by decide : Flags.to_u8 Flags.default = 0x20)

/-- C6 witness: the amended reset postcondition at a concrete memory holding
the vector `0x1234` and the power-on CPU state. -/
theorem claim_C6_witness :
    (NES6502.reset (fun a => if a = 0xFFFC then 0x34 else if a = 0xFFFD then 0x12 else 0) cpu0).pc =
        (fun a => if a = 0xFFFC then 0x34 else if a = 0xFFFD then 0x12 else 0 : Nat → Nat) 0xFFFC +
          256 * (fun a => if a = 0xFFFC then 0x34 else if a = 0xFFFD then 0x12 else 0 : Nat → Nat) 0xFFFD
  ∧ (NES6502.reset (fun a => if a = 0xFFFC then 0x34 else if a = 0xFFFD then 0x12 else 0) cpu0).sp = 0xFD
  ∧ Flags.to_u8 (NES6502.reset (fun a => if a = 0xFFFC then 0x34 else if a = 0xFFFD then 0x12 else 0) cpu0).flags = 0x20
  ∧ (NES6502.reset (fun a => if a = 0xFFFC then 0x34 else if a = 0xFFFD then 0x12 else 0) cpu0).cycles = 8 :=
  claim_C6 (fun a => if a = 0xFFFC then 0x34 else if a = 0xFFFD then 0x12 else 0) cpu0 (by decide)

set_option maxRecDepth 4000 in
/-- C8: the status-flag byte round-trip.  Unpacking a packed `Flags` record
restores every field, and packing an unpacked byte preserves every bit outside
bits 4 and 5 (mask `0xCF`). -/
theorem claim_C8 :
    (∀ c z i d br o n : Bool,
        Flags.from_u8 (Flags.to_u8 ⟨c, z, i, d, br, o, n⟩) = ⟨c, z, i, d, br, o, n⟩)
  ∧ (∀ b : Nat, b < 256 → Flags.to_u8 (Flags.from_u8 b) &&& 0xCF = b &&& 0xCF) := by
  constructor
  · decide
  · decide

/-- C8 witness: the round-trip at the all-set flags record and at byte `0xAB`. -/
theorem claim_C8_witness :
    Flags.from_u8 (Flags.to_u8 ⟨true, true, true, true, true, true, true⟩) =
        (⟨true, true, true, true, true, true, true⟩ : Flags)
  ∧ Flags.to_u8 (Flags.from_u8 0xAB) &&& 0xCF = 0xAB &&& 0xCF :=
  ⟨claim_C8.1 true true true true true true true, claim_C8.2 0xAB (by decide)⟩

/-! ## PPU Loopy register (src/src/ppu.rs lines 106-145) -/

/-- The PPU `Loopy` scroll/address register (src/src/ppu.rs lines 106-114). -/
structure Loopy where
  coarse_x : Nat
  coarse_y : Nat
  nametable_x : Bool
  nametable_y : Bool
  fine_y : Nat
  address : Nat
deriving DecidableEq

/-- `Loopy::set_coarse_x` (src/src/ppu.rs lines 117-120); the address mask is
`0b0111_1111_1110_0000`. -/
def Loopy.set_coarse_x (l : Loopy) (value : Nat) : Loopy :=
  { l with
    coarse_x := value
    address := (l.address &&& 0x7FE0) ||| value }

/-- `Loopy::set_coarse_y` (src/src/ppu.rs lines 121-124); the address mask is
`0b0111_1100_0001_1111`. -/
def Loopy.set_coarse_y (l : Loopy) (value : Nat) : Loopy :=
  { l with
    coarse_y := value
    address := (l.address &&& 0x7C1F) ||| (value <<< 5) }

/-- `Loopy::set_nametable_x` (src/src/ppu.rs lines 125-128); the address mask is
`0b0111_1011_1111_1111`. -/
def Loopy.set_nametable_x (l : Loopy) (value : Bool) : Loopy :=
  { l with
    nametable_x := value
    address := (l.address &&& 0x7BFF) ||| (value.toNat <<< 10) }

/-- `Loopy::set_nametable_y` (src/src/ppu.rs lines 129-132); the address mask is
`0b0111_0111_1111_1111`. -/
def Loopy.set_nametable_y (l : Loopy) (value : Bool) : Loopy :=
  { l with
    nametable_y := value
    address := (l.address &&& 0x77FF) ||| (value.toNat <<< 11) }

/-- `Loopy::set_fine_y` (src/src/ppu.rs lines 133-136); the address mask is
`0b0000_1111_1111_1111`, and the `u16` shift `(value as u16) << 12` discards
bits above bit 15. -/
def Loopy.set_fine_y (l : Loopy) (value : Nat) : Loopy :=
  { l with
    fine_y := value
    address := (l.address &&& 0x0FFF) ||| ((value <<< 12) % 65536) }

/-- `Loopy::set_address` (src/src/ppu.rs lines 137-144). -/
def Loopy.set_address (l : Loopy) (value : Nat) : Loopy :=
  { l with
    address := value
    coarse_x := value &&& 0x001F
    coarse_y := (value &&& 0x03E0) >>> 5
    nametable_x := (value &&& 0x0400) >>> 10 ≠ 0
    nametable_y := (value &&& 0x0800) >>> 11 ≠ 0
    fine_y := (value &&& 0x7000) >>> 12 }

/-- Claim-side definition: re-packing the unpacked `Loopy` fields
`{fine_y, nametable_y, nametable_x, coarse_y, coarse_x}` into the bit
positions that `set_address` unpacks them from. -/
def Loopy.pack (l : Loopy) : Nat :=
  l.coarse_x ||| ((l.coarse_y <<< 5) ||| ((l.nametable_x.toNat <<< 10) |||
    ((l.nametable_y.toNat <<< 11) ||| (l.fine_y <<< 12))))

/-- Claim-side consistency predicate: the in-range fields and the packed
`address` agree. -/
def Loopy.inv (l : Loopy) : Prop :=
  l.coarse_x < 32 ∧ l.coarse_y < 32 ∧ l.fine_y < 8 ∧ l.address = l.pack

theorem lor_eq_add_of_lt (a b k : Nat) (hb : b < 2 ^ k) (ha : a % 2 ^ k = 0) :
    a ||| b = a + b := by
  have h := lor_split k a b
  rw [ha, Nat.zero_or, Nat.mod_eq_of_lt hb, Nat.div_eq_of_lt hb, Nat.or_zero] at h
  have hdm := Nat.div_add_mod a (2 ^ k)
  rw [ha] at hdm
  omega

/-- Merging a value into a zeroed field of width `k` at bit position `j`. -/
theorem lor_hole (x v j k : Nat) (hv : v < 2 ^ k) (hx : x / 2 ^ j % 2 ^ k = 0) :
    x ||| (v <<< j) = x + v * 2 ^ j := by
  have hsplit := lor_split j x (v <<< j)
  have hmod : (v <<< j) % 2 ^ j = 0 := by
    rw [Nat.shiftLeft_eq]; exact Nat.mul_mod_left v (2 ^ j)
  have hdiv : (v <<< j) / 2 ^ j = v := by
    rw [Nat.shiftLeft_eq, Nat.mul_div_cancel]
    exact Nat.two_pow_pos j
  rw [hmod, Nat.or_zero, hdiv, lor_eq_add_of_lt (x / 2 ^ j) v k hv hx] at hsplit
  rw [hsplit]
  have hdm := Nat.div_add_mod x (2 ^ j)
  calc x % 2 ^ j + 2 ^ j * (x / 2 ^ j + v)
      = (2 ^ j * (x / 2 ^ j) + x % 2 ^ j) + 2 ^ j * v := by ring
    _ = x + 2 ^ j * v := by rw [hdm]
    _ = x + v * 2 ^ j := by ring

/-- The packed `Loopy` value as plain arithmetic, for in-range fields. -/
theorem pack_eq_sum (l : Loopy) (hcx : l.coarse_x < 32) (hcy : l.coarse_y < 32)
    (_hfy : l.fine_y < 8) :
    l.pack = l.coarse_x + 32 * l.coarse_y + 1024 * l.nametable_x.toNat +
      2048 * l.nametable_y.toNat + 4096 * l.fine_y := by
  have hnx := Bool.toNat_le l.nametable_x
  have hny := Bool.toNat_le l.nametable_y
  unfold Loopy.pack
  have e1 : (l.nametable_y.toNat <<< 11) ||| (l.fine_y <<< 12) =
      2048 * l.nametable_y.toNat + 4096 * l.fine_y := by
    rw [Nat.lor_comm]
    have h := lor_hole (l.fine_y <<< 12) l.nametable_y.toNat 11 1
      (by omega) (by rw [Nat.shiftLeft_eq]; norm_num; omega)
    rw [h, Nat.shiftLeft_eq]
    norm_num
    omega
  rw [e1]
  have e2 : (l.nametable_x.toNat <<< 10) |||
      (2048 * l.nametable_y.toNat + 4096 * l.fine_y) =
      1024 * l.nametable_x.toNat + 2048 * l.nametable_y.toNat + 4096 * l.fine_y := by
    rw [Nat.lor_comm]
    have h := lor_hole (2048 * l.nametable_y.toNat + 4096 * l.fine_y)
      l.nametable_x.toNat 10 1 (by omega) (by norm_num; omega)
    rw [h]
    norm_num
    omega
  rw [e2]
  have e3 : (l.coarse_y <<< 5) |||
      (1024 * l.nametable_x.toNat + 2048 * l.nametable_y.toNat + 4096 * l.fine_y) =
      32 * l.coarse_y + 1024 * l.nametable_x.toNat + 2048 * l.nametable_y.toNat +
        4096 * l.fine_y := by
    rw [Nat.lor_comm]
    have h := lor_hole (1024 * l.nametable_x.toNat + 2048 * l.nametable_y.toNat +
        4096 * l.fine_y) l.coarse_y 5 5 (by norm_num; omega) (by norm_num; omega)
    rw [h]
    norm_num
    omega
  rw [e3]
  have e4 := lor_eq_add_of_lt
    (32 * l.coarse_y + 1024 * l.nametable_x.toNat + 2048 * l.nametable_y.toNat +
      4096 * l.fine_y) l.coarse_x 5 (by norm_num; omega) (by norm_num; omega)
  rw [Nat.lor_comm, e4]
  omega

theorem decide_ne_zero_toNat (t : Nat) (h : t ≤ 1) : (decide (t ≠ 0)).toNat = t := by
  interval_cases t <;> rfl

theorem set_coarse_x_inv (l : Loopy) (v : Nat) (hI : l.inv) (hv : v < 32) :
    (l.set_coarse_x v).inv := by
  obtain ⟨hcx, hcy, hfy, haddr⟩ := hI
  have hnx := Bool.toNat_le l.nametable_x
  have hny := Bool.toNat_le l.nametable_y
  have hsum := pack_eq_sum l hcx hcy hfy
  have hmask := land_7FE0 l.address
  refine ⟨hv, hcy, hfy, ?_⟩
  have hpack2 := pack_eq_sum (l.set_coarse_x v) hv hcy hfy
  simp only [Loopy.set_coarse_x] at hpack2 ⊢
  rw [hpack2, lor_eq_add_of_lt (l.address &&& 0x7FE0) v 5 (by omega) (by rw [hmask]; omega),
    hmask]
  omega

theorem set_coarse_y_inv (l : Loopy) (v : Nat) (hI : l.inv) (hv : v < 32) :
    (l.set_coarse_y v).inv := by
  obtain ⟨hcx, hcy, hfy, haddr⟩ := hI
  have hnx := Bool.toNat_le l.nametable_x
  have hny := Bool.toNat_le l.nametable_y
  have hsum := pack_eq_sum l hcx hcy hfy
  have hmask := land_7C1F l.address
  refine ⟨hcx, hv, hfy, ?_⟩
  have hpack2 := pack_eq_sum (l.set_coarse_y v) hcx hv hfy
  simp only [Loopy.set_coarse_y] at hpack2 ⊢
  rw [hpack2, lor_hole (l.address &&& 0x7C1F) v 5 5 (by omega) (by rw [hmask]; omega), hmask]
  omega

theorem set_nametable_x_inv (l : Loopy) (v : Bool) (hI : l.inv) :
    (l.set_nametable_x v).inv := by
  obtain ⟨hcx, hcy, hfy, haddr⟩ := hI
  have hsum := pack_eq_sum l hcx hcy hfy
  have hmask := land_7BFF l.address
  have hv := Bool.toNat_le v
  have hnxo := Bool.toNat_le l.nametable_x
  have hnyo := Bool.toNat_le l.nametable_y
  refine ⟨hcx, hcy, hfy, ?_⟩
  have hpack2 := pack_eq_sum (l.set_nametable_x v) hcx hcy hfy
  simp only [Loopy.set_nametable_x] at hpack2 ⊢
  rw [hpack2, lor_hole (l.address &&& 0x7BFF) v.toNat 10 1 (by omega) (by rw [hmask]; omega),
    hmask]
  omega

theorem set_nametable_y_inv (l : Loopy) (v : Bool) (hI : l.inv) :
    (l.set_nametable_y v).inv := by
  obtain ⟨hcx, hcy, hfy, haddr⟩ := hI
  have hsum := pack_eq_sum l hcx hcy hfy
  have hmask := land_77FF l.address
  have hv := Bool.toNat_le v
  have hnxo := Bool.toNat_le l.nametable_x
  have hnyo := Bool.toNat_le l.nametable_y
  refine ⟨hcx, hcy, hfy, ?_⟩
  have hpack2 := pack_eq_sum (l.set_nametable_y v) hcx hcy hfy
  simp only [Loopy.set_nametable_y] at hpack2 ⊢
  rw [hpack2, lor_hole (l.address &&& 0x77FF) v.toNat 11 1 (by omega) (by rw [hmask]; omega),
    hmask]
  omega

theorem set_fine_y_inv (l : Loopy) (v : Nat) (hI : l.inv) (hv : v < 8) :
    (l.set_fine_y v).inv := by
  obtain ⟨hcx, hcy, hfy, haddr⟩ := hI
  have hnx := Bool.toNat_le l.nametable_x
  have hny := Bool.toNat_le l.nametable_y
  have hsum := pack_eq_sum l hcx hcy hfy
  have hmask := land_4095 l.address
  refine ⟨hcx, hcy, hv, ?_⟩
  have hpack2 := pack_eq_sum (l.set_fine_y v) hcx hcy hv
  simp only [Loopy.set_fine_y] at hpack2 ⊢
  have hshl : (v <<< 12) % 65536 = v <<< 12 := by
    rw [Nat.shiftLeft_eq]
    exact Nat.mod_eq_of_lt (by omega)
  rw [hpack2, hshl, lor_hole (l.address &&& 0x0FFF) v 12 3 (by omega) (by rw [hmask]; omega),
    hmask]
  omega

theorem set_address_roundtrip (l : Loopy) (a : Nat) (ha : a < 32768) :
    (l.set_address a).pack = a ∧ (l.set_address a).address = a := by
  refine ⟨?_, rfl⟩
  have h31 := land_31 a
  have h3E0 := land_3E0 a
  have h400 := land_1024 a
  have h800 := land_2048 a
  have h7000 := land_7000 a
  have hcx : (l.set_address a).coarse_x < 32 := by
    simp only [Loopy.set_address]
    rw [h31]
    omega
  have hcy : (l.set_address a).coarse_y < 32 := by
    simp only [Loopy.set_address]
    rw [Nat.shiftRight_eq_div_pow, h3E0]
    omega
  have hfy : (l.set_address a).fine_y < 8 := by
    simp only [Loopy.set_address]
    rw [Nat.shiftRight_eq_div_pow, h7000]
    omega
  have hb1 : (a &&& 0x0400) >>> 10 = a / 1024 % 2 := by
    rw [Nat.shiftRight_eq_div_pow, h400]
    omega
  have hb2 : (a &&& 0x0800) >>> 11 = a / 2048 % 2 := by
    rw [Nat.shiftRight_eq_div_pow, h800]
    omega
  have hsum := pack_eq_sum (l.set_address a) hcx hcy hfy
  rw [hsum]
  simp only [Loopy.set_address]
  rw [hb1, hb2, decide_ne_zero_toNat (a / 1024 % 2) (by omega),
    decide_ne_zero_toNat (a / 2048 % 2) (by omega),
    Nat.shiftRight_eq_div_pow, Nat.shiftRight_eq_div_pow, h31, h3E0, h7000]
  omega

/-- C9: `set_address` followed by re-packing the unpacked fields is the
identity on the 15-bit domain, and every single-field setter keeps the packed
`address` consistent with the field values. -/
theorem claim_C9 :
    (∀ (l : Loopy) (a : Nat), a < 32768 →
        (l.set_address a).pack = a ∧ (l.set_address a).address = a)
  ∧ (∀ (l : Loopy) (v : Nat), l.inv → v < 32 → (l.set_coarse_x v).inv)
  ∧ (∀ (l : Loopy) (v : Nat), l.inv → v < 32 → (l.set_coarse_y v).inv)
  ∧ (∀ (l : Loopy) (v : Bool), l.inv → (l.set_nametable_x v).inv)
  ∧ (∀ (l : Loopy) (v : Bool), l.inv → (l.set_nametable_y v).inv)
  ∧ (∀ (l : Loopy) (v : Nat), l.inv → v < 8 → (l.set_fine_y v).inv) :=
  ⟨set_address_roundtrip,
   fun l v hI hv => set_coarse_x_inv l v hI hv,
   fun l v hI hv => set_coarse_y_inv l v hI hv,
   fun l v hI => set_nametable_x_inv l v hI,
   fun l v hI => set_nametable_y_inv l v hI,
   fun l v hI hv => set_fine_y_inv l v hI hv⟩

/-- The all-zero `Loopy` register (the `Default::default()` of the source). -/
def loopy0 : Loopy :=
  { coarse_x := 0, coarse_y := 0, nametable_x := false, nametable_y := false,
    fine_y := 0, address := 0 }

theorem loopy0_inv : loopy0.inv :=
  ⟨by decide, by decide, by decide, by decide⟩

/-- C9 witness: the round-trip at the 15-bit address `0x2ABC` and a coarse-x
update on the zero register. -/
theorem claim_C9_witness :
    ((loopy0.set_address 0x2ABC).pack = 0x2ABC ∧ (loopy0.set_address 0x2ABC).address = 0x2ABC)
  ∧ (loopy0.set_coarse_x 7).inv :=
  ⟨claim_C9.1 loopy0 0x2ABC (by norm_num), claim_C9.2.1 loopy0 7 loopy0_inv (by norm_num)⟩

/-! ## APU (src/src/apu.rs) -/

theorem land_16 (a : Nat) : a &&& 16 = 16 * (a / 16 % 2) := by
  have h := land_split 4 a 16
  norm_num at h
  omega

theorem xor_le_one (x y : Nat) (hx : x ≤ 1) (hy : y ≤ 1) : x ^^^ y ≤ 1 := by
  interval_cases x <;> interval_cases y <;> decide

/-- The noise channel (src/src/apu.rs lines 192-223); `Noise::default()` seeds
the shift register to 1. -/
structure Noise where
  length_counter_halt : Bool
  constant_flag : Bool
  mode : Bool
  noise_period : Nat
  length_counter : Nat
  shift_register : Nat
  shift_register_timer : Nat
  envelope_volume : Nat
  envelope_decay_level : Nat
  envelope_start_flag : Bool
  envelope_counter : Nat
deriving DecidableEq

/-- `Noise::default` (src/src/apu.rs lines 207-223). -/
def Noise.default : Noise :=
  { length_counter_halt := false, constant_flag := false, mode := false,
    noise_period := 0, length_counter := 0, shift_register := 1,
    shift_register_timer := 0, envelope_volume := 0, envelope_decay_level := 0,
    envelope_start_flag := false, envelope_counter := 0 }

/-- `Noise::tick_shift_register` (src/src/apu.rs lines 226-234).  The source's
two assignments `shift_register >>= 1` and
`shift_register = (shift_register & 0x3FFF) | (feedback << 14)` are written as
one expression; the trailing `saturating_sub(1)` on the timer is `Nat`
subtraction. -/
def Noise.tick_shift_register (n : Noise) : Noise :=
  let n1 :=
    if n.shift_register_timer = 0 then
      let feedback := (n.shift_register &&& 0x1) ^^^
        (if n.mode then (n.shift_register &&& 0x40) >>> 6
         else (n.shift_register &&& 0x2) >>> 1)
      { n with
        shift_register := ((n.shift_register >>> 1) &&& 0x3FFF) ||| (feedback <<< 14)
        shift_register_timer := n.noise_period }
    else n
  { n1 with shift_register_timer := n1.shift_register_timer - 1 }

theorem noise_next_sr_ne_zero (sr : Nat) (mode : Bool) (h15 : sr < 32768) (hnz : sr ≠ 0) :
    ((sr >>> 1) &&& 0x3FFF) |||
      (((sr &&& 0x1) ^^^ (if mode then (sr &&& 0x40) >>> 6 else (sr &&& 0x2) >>> 1)) <<< 14)
      ≠ 0 := by
  rcases Nat.lt_or_ge sr 2 with h2 | h2
  · have hsr : sr = 1 := by omega
    subst hsr
    cases mode <;> decide
  · have hA : (sr >>> 1) &&& 0x3FFF = sr / 2 % 16384 := by
      rw [Nat.shiftRight_eq_div_pow, land_16383]
    have hx1 : sr &&& 0x1 ≤ 1 := by
      rw [land_1]
      omega
    have hx2 : (sr &&& 0x2) >>> 1 ≤ 1 := by
      rw [Nat.shiftRight_eq_div_pow, land_2]
      omega
    have hx3 : (sr &&& 0x40) >>> 6 ≤ 1 := by
      rw [Nat.shiftRight_eq_div_pow, land_64]
      omega
    have hfb : ((sr &&& 0x1) ^^^
        (if mode then (sr &&& 0x40) >>> 6 else (sr &&& 0x2) >>> 1)) ≤ 1 := by
      cases mode
      · simpa using xor_le_one _ _ hx1 hx2
      · simpa using xor_le_one _ _ hx1 hx3
    have hole := lor_hole ((sr >>> 1) &&& 0x3FFF)
      ((sr &&& 0x1) ^^^ (if mode then (sr &&& 0x40) >>> 6 else (sr &&& 0x2) >>> 1)) 14 1
      (by omega) (by rw [hA]; omega)
    rw [hole, hA]
    have hApos : 1 ≤ sr / 2 % 16384 := by omega
    omega

/-- C10: the 15-bit noise LFSR starts at 1 and one `tick_shift_register` maps a
nonzero 15-bit shift register to a nonzero value, in either mode and for any
timer state, so the register can never latch to zero. -/
theorem claim_C10 :
    Noise.default.shift_register = 1
  ∧ (∀ n : Noise, n.shift_register ≠ 0 → n.shift_register < 32768 →
      n.tick_shift_register.shift_register ≠ 0) := by
  refine ⟨rfl, ?_⟩
  intro n hnz h15
  by_cases ht : n.shift_register_timer = 0
  · simp only [Noise.tick_shift_register, ht, if_pos]
    exact noise_next_sr_ne_zero n.shift_register n.mode h15 hnz
  · simp only [Noise.tick_shift_register, ht, if_neg, not_false_iff]
    exact hnz

/-- C10 witness: one tick of the power-on noise channel keeps the register
nonzero. -/
theorem claim_C10_witness :
    Noise.default.shift_register = 1
  ∧ Noise.default.tick_shift_register.shift_register ≠ 0 :=
  ⟨claim_C10.1, claim_C10.2 Noise.default (by decide) (by decide)⟩

/-- The DMC channel registers (src/src/apu.rs lines 275-312). -/
structure DMC where
  irq_enable : Bool
  loop_sample : Bool
  rate : Nat
  output : Nat
  sample_address : Nat
  sample_length : Nat
  memory_reader_address : Nat
  bytes_remaining : Nat
  sample_buffer : Nat
  output_unit_timer : Nat
  shift_register : Nat
  bits_remaining : Nat
  silence_flag : Bool
deriving DecidableEq

/-- `DMC::default` (src/src/apu.rs lines 294-312). -/
def DMC.default : DMC :=
  { irq_enable := false, loop_sample := false, rate := 0, output := 0,
    sample_address := 0xC000, sample_length := 1, memory_reader_address := 0,
    bytes_remaining := 0, sample_buffer := 0, output_unit_timer := 0,
    shift_register := 0, bits_remaining := 0, silence_flag := false }

/-- The `0x4012` arm of `APU::cpu_write` (src/src/apu.rs lines 674-676):
`self.registers.dmc.sample_address = 0xC000 + (value * 64) as u16;`.  The
multiplication `value * 64` is performed in `u8`, so it wraps modulo 256 — and
panics outright under the overflow-checked debug profile — before the widening
cast to `u16`. -/
def dmc_write_4012 (d : DMC) (value : Nat) : DMC :=
  { d with sample_address := 0xC000 + (value * 64) % 256 }

/-- The `0x4013` arm of `APU::cpu_write` (src/src/apu.rs lines 677-679):
`self.registers.dmc.sample_length = (value * 16) as u16 + 1;` with the same
`u8` multiplication wrap. -/
def dmc_write_4013 (d : DMC) (value : Nat) : DMC :=
  { d with sample_length := (value * 16) % 256 + 1 }

/-- C7: writing `4` to `$4012` leaves the DMC sample address at `0xC000`
instead of the claimed `0xC000 + 64 × 4 = 0xC100`, because `value * 64`
overflows `u8`; writing `16` to `$4013` yields sample length 1 instead of the
claimed `16 × 16 + 1 = 257`. -/
theorem claim_C7 :
    (dmc_write_4012 DMC.default 4).sample_address = 0xC000
  ∧ (dmc_write_4012 DMC.default 4).sample_address ≠ 0xC000 + 64 * 4
  ∧ (dmc_write_4013 DMC.default 16).sample_length = 1
  ∧ (dmc_write_4013 DMC.default 16).sample_length ≠ 16 * 16 + 1 := by
  decide

/-! ## Mapper 1 (src/src/mappers/mapper1.rs) -/

/-- Nametable mirroring modes (src/src/cartridge.rs lines 128-136). -/
inductive MirroringMode where
  | hardwired
  | horizontal
  | vertical
  | singleScreenLow
  | singleScreenHigh
deriving DecidableEq

/-- `Mapper1::mirroring_mode` (src/src/mappers/mapper1.rs lines 127-135).  The
selector is `(control_register & 0b10000) >> 4` — bit 4 of the control
register — matched against 0..3, with a panicking default arm (`none`). -/
def mapper1_mirroring_mode (control_register : Nat) : Option MirroringMode :=
  match (control_register &&& 0b10000) >>> 4 with
  | 0 => some .singleScreenLow
  | 1 => some .singleScreenHigh
  | 2 => some .vertical
  | 3 => some .horizontal
  | _ => none

/-- C5: a control register value of 2 — low 2 bits `0b10`, which per the claim
should select Vertical — yields SingleScreenLow, because the selector reads
bit 4 (the CHR-mode bit) instead of the low 2 bits; no control value at all
can produce Vertical or Horizontal. -/
theorem claim_C5 :
    mapper1_mirroring_mode 2 = some MirroringMode.singleScreenLow
  ∧ mapper1_mirroring_mode 3 = some MirroringMode.singleScreenLow
  ∧ ∀ c : Nat, mapper1_mirroring_mode c ≠ some MirroringMode.vertical
      ∧ mapper1_mirroring_mode c ≠ some MirroringMode.horizontal := by
  refine ⟨by decide, by decide, ?_⟩
  intro c
  have hsel : (c &&& 0b10000) >>> 4 = c / 16 % 2 := by
    rw [Nat.shiftRight_eq_div_pow, land_16 c]
    omega
  have hcase : c / 16 % 2 = 0 ∨ c / 16 % 2 = 1 := by omega
  unfold mapper1_mirroring_mode
  rw [hsel]
  rcases hcase with h | h <;> rw [h] <;> exact ⟨by decide, by decide⟩

/-! ## PPU sprite evaluation (src/src/ppu.rs lines 632-661) -/

/-- OAM sprite attributes (src/src/ppu.rs lines 184-203). -/
structure OAMAttributes where
  palette : Nat
  priority : Bool
  flip_vertically : Bool
  flip_horizontally : Bool
deriving DecidableEq

/-- `OAMAttributes::to_u8` (src/src/ppu.rs lines 193-195). -/
def OAMAttributes.to_u8 (a : OAMAttributes) : Nat :=
  (a.flip_horizontally.toNat <<< 7) ||| (a.flip_vertically.toNat <<< 6) |||
    (a.priority.toNat <<< 5) ||| a.palette

/-- `OAMAttributes::set_from_u8` (src/src/ppu.rs lines 197-202). -/
def OAMAttributes.set_from_u8 (value : Nat) : OAMAttributes where
  palette := value &&& 0b11
  priority := value &&& 0b100000 > 0
  flip_horizontally := value &&& 0b1000000 > 0
  flip_vertically := value &&& 0b10000000 > 0

/-- One OAM sprite record (src/src/ppu.rs lines 205-211). -/
structure OAMSprite where
  y : Nat
  id : Nat
  attributes : OAMAttributes
  x : Nat
deriving DecidableEq

/-- `OAMSprite::default()` — all fields zero. -/
def OAMSprite.default : OAMSprite := ⟨0, 0, ⟨0, false, false, false⟩, 0⟩

/-- The PPU state touched by the dot-257 sprite evaluation (src/src/ppu.rs
lines 632-661): secondary OAM, the sprite counter, the sprite-zero flag and
the `sprite_overflow` status bit.  (The sprite shifter arrays, which the block
only zeroes, are not represented.) -/
structure SpriteEvalState where
  active_sprites : List OAMSprite
  sprite_count : Nat
  sprite_zero_hit_possible : Bool
  sprite_overflow : Bool
deriving DecidableEq

/-- The body of one `for i in 0..64` iteration of the dot-257 sprite
evaluation, up to the overflow check (src/src/ppu.rs lines 642-654):
`diff = scanline_count - oam[i].y as i16`; a sprite in range is pushed into
secondary OAM when fewer than 8 have been selected, remembering sprite 0. -/
def sprite_eval_step (scanline sprite_size : Int) (oam : Nat → OAMSprite) (i : Nat)
    (st : SpriteEvalState) : SpriteEvalState :=
  let diff : Int := scanline - ((oam i).y : Int)
  if 0 ≤ diff ∧ diff < sprite_size then
    if st.sprite_count < 8 then
      { st with
        sprite_zero_hit_possible := if i = 0 then true else st.sprite_zero_hit_possible
        active_sprites := st.active_sprites ++ [oam i]
        sprite_count := st.sprite_count + 1 }
    else st
  else st

/-- The `for i in 0..64` loop of the dot-257 sprite evaluation
(src/src/ppu.rs lines 641-660): after each iteration body the source checks
`if self.sprite_count == 9` and, if so, sets `sprite_overflow` and breaks.
`i` is the current index and the second `Nat` the remaining iterations. -/
def sprite_eval_loop (scanline sprite_size : Int) (oam : Nat → OAMSprite) :
    Nat → Nat → SpriteEvalState → SpriteEvalState
  | _, 0, st => st
  | i, rem + 1, st =>
    let st1 := sprite_eval_step scanline sprite_size oam i st
    if st1.sprite_count = 9 then { st1 with sprite_overflow := true }
    else sprite_eval_loop scanline sprite_size oam (i + 1) rem st1

/-- The dot-257 sprite evaluation (src/src/ppu.rs lines 632-661): clear
secondary OAM, the counter and the sprite-zero flag, then run the 64-sprite
loop.  `overflow0` is the `sprite_overflow` bit before the evaluation; the
block never clears it (that happens only on the pre-render scanline). -/
def sprite_evaluation (scanline sprite_size : Int) (oam : Nat → OAMSprite)
    (overflow0 : Bool) : SpriteEvalState :=
  sprite_eval_loop scanline sprite_size oam 0 64
    { active_sprites := [], sprite_count := 0, sprite_zero_hit_possible := false,
      sprite_overflow := overflow0 }

theorem sprite_eval_step_count (scanline sprite_size : Int) (oam : Nat → OAMSprite)
    (i : Nat) (st : SpriteEvalState) (h : st.sprite_count ≤ 8) :
    (sprite_eval_step scanline sprite_size oam i st).sprite_count ≤ 8 ∧
      (sprite_eval_step scanline sprite_size oam i st).sprite_overflow =
        st.sprite_overflow := by
  simp only [sprite_eval_step]
  split_ifs with h1 h2 <;> simp <;> omega

theorem sprite_eval_loop_overflow (scanline sprite_size : Int) (oam : Nat → OAMSprite) :
    ∀ (rem i : Nat) (st : SpriteEvalState), st.sprite_count ≤ 8 →
      (sprite_eval_loop scanline sprite_size oam i rem st).sprite_overflow =
        st.sprite_overflow := by
  intro rem
  induction rem with
  | zero =>
    intro i st h
    rfl
  | succ rem ih =>
    intro i st h
    obtain ⟨hc, ho⟩ := sprite_eval_step_count scanline sprite_size oam i st h
    have hred : sprite_eval_loop scanline sprite_size oam i (rem + 1) st =
        if (sprite_eval_step scanline sprite_size oam i st).sprite_count = 9
        then { sprite_eval_step scanline sprite_size oam i st with sprite_overflow := true }
        else sprite_eval_loop scanline sprite_size oam (i + 1) rem
          (sprite_eval_step scanline sprite_size oam i st) := rfl
    rw [hred, if_neg (by omega), ih (i + 1) _ hc, ho]

/-- Claim-side: the number of OAM indices whose y-range `[y, y + h)` contains
the scanline. -/
def qualifying_count (scanline h : Int) (oam : Nat → OAMSprite) : Nat :=
  ((List.range 64).filter fun i =>
    decide (((oam i).y : Int) ≤ scanline ∧ scanline < ((oam i).y : Int) + h)).length

/-- C3: the dot-257 sprite evaluation never changes `sprite_overflow` — the
counter saturates at 8, so the `sprite_count == 9` branch is unreachable —
even when more than 8 sprites intersect the scanline, as with all 64 sprites
at `y = 0` on scanline 0 with 8-pixel sprites. -/
theorem claim_C3 :
    (∀ (scanline sprite_size : Int) (oam : Nat → OAMSprite) (ov : Bool),
        (sprite_evaluation scanline sprite_size oam ov).sprite_overflow = ov)
  ∧ qualifying_count 0 8 (fun _ => OAMSprite.default) = 64
  ∧ 8 < qualifying_count 0 8 (fun _ => OAMSprite.default)
  ∧ (sprite_evaluation 0 8 (fun _ => OAMSprite.default) false).sprite_overflow = false := by
  refine ⟨?_, by decide, by decide, ?_⟩
  · intro scanline sprite_size oam ov
    exact sprite_eval_loop_overflow scanline sprite_size oam 64 0 _ (by norm_num)
  · exact sprite_eval_loop_overflow 0 8 (fun _ => OAMSprite.default) 64 0 _ (by norm_num)

/-! ## Cartridge and Bus (src/src/cartridge.rs, src/src/bus.rs) -/

/-- The cartridge state used by the CPU-side handlers (src/src/cartridge.rs
lines 15-23): the `has_ram` flag, the work-RAM and PRG-ROM bytes, and the
boxed mapper's `get_mapped_address_cpu` as a function; writes forwarded to
the mapper's `mapped_cpu_write` are recorded in a log. -/
structure Cartridge where
  has_ram : Bool
  ram : Nat → Nat
  prg_rom : Nat → Nat
  map_cpu : Nat → Nat
  mapper_writes : List (Nat × Nat)

/-- `Cartridge::cpu_read` (src/src/cartridge.rs lines 69-75). -/
def Cartridge.cpu_read (c : Cartridge) (address : Nat) : Nat :=
  if c.has_ram ∧ 0x6000 ≤ address ∧ address ≤ 0x7FFF then
    c.ram (c.map_cpu address)
  else
    c.prg_rom (c.map_cpu address)

/-- `Cartridge::cpu_write` (src/src/cartridge.rs lines 77-83). -/
def Cartridge.cpu_write (c : Cartridge) (address value : Nat) : Cartridge :=
  if c.has_ram ∧ 0x6000 ≤ address ∧ address ≤ 0x7FFF then
    { c with ram := fun j => if j = c.map_cpu address then value else c.ram j }
  else
    { c with mapper_writes := (address, value) :: c.mapper_writes }

/-- The bus state (src/src/bus.rs lines 33-50).  The PPU and APU peers are
boxed trait objects; their read handlers are represented by response
functions, and writes forwarded to them are recorded in logs. -/
structure Bus where
  cpu_ram : Nat → Nat
  ppu_read_response : Nat → Nat
  apu_read_response : Nat → Nat
  ppu_writes : List (Nat × Nat)
  apu_writes : List (Nat × Nat)
  cartridge : Cartridge
  controllers : Nat → Nat
  controllers_state : Nat → Nat
  dma_page : Nat
  dma_address : Nat
  dma_data : Nat
  dma_queued : Bool
  dma_running : Bool
  global_cycles : Nat

/-- `Bus::cpu_read` (src/src/bus.rs lines 92-126): dispatch by address range,
arm for arm.  Returns the byte read and the successor bus state — the
controller arm shifts its shift register (a `u8` left shift, so modulo 256);
the PPU and APU arms mutate only their own devices, represented by the
response functions. -/
def Bus.cpu_read (b : Bus) (address : Nat) : Nat × Bus :=
  if address ≤ 0x1FFF then
    (b.cpu_ram (address &&& 0x07FF), b)
  else if 0x2000 ≤ address ∧ address ≤ 0x3FFF then
    (b.ppu_read_response (address &&& 0x0007), b)
  else if address = 0x4015 then
    (b.apu_read_response address, b)
  else if address = 0x4016 ∨ address = 0x4017 then
    let index := address &&& 0x1
    let value := if b.controllers_state index &&& 0x80 > 0 then 1 else 0
    (value, { b with controllers_state := fun j =>
        if j = index then b.controllers_state index * 2 % 256 else b.controllers_state j })
  else if 0x8000 ≤ address ∧ address ≤ 0xFFFF then
    (b.cartridge.cpu_read address, b)
  else
    (0, b)

/-- `Bus::cpu_write` (src/src/bus.rs lines 128-161): dispatch by address
range, arm for arm. -/
def Bus.cpu_write (b : Bus) (address value : Nat) : Bus :=
  if address ≤ 0x1FFF then
    { b with cpu_ram := fun j => if j = address &&& 0x07FF then value else b.cpu_ram j }
  else if 0x2000 ≤ address ∧ address ≤ 0x3FFF then
    { b with ppu_writes := (address &&& 0x0007, value) :: b.ppu_writes }
  else if 0x4000 ≤ address ∧ address ≤ 0x4013 then
    { b with apu_writes := (address, value) :: b.apu_writes }
  else if address = 0x4014 then
    { b with dma_page := value, dma_address := 0, dma_queued := true }
  else if address = 0x4016 then
    { b with controllers_state := fun j =>
        if j = address &&& 0x1 then b.controllers (address &&& 0x1) else b.controllers_state j }
  else if address = 0x4017 then
    { b with apu_writes := (address, value) :: b.apu_writes }
  else
    b

/-- A cartridge with battery RAM holding the byte `0xAB` at offset `0x6000`
(the mapper maps the RAM window identically, as `Mapper1` does). -/
def demo_cartridge : Cartridge :=
  { has_ram := true, ram := fun j => if j = 0x6000 then 0xAB else 0,
    prg_rom := fun _ => 0, map_cpu := fun a => a, mapper_writes := [] }

/-- C4: `Bus::cpu_read` and `Bus::cpu_write` have no arm for 0x6000–0x7FFF;
reads of that range fall to the default arm, returning 0 with the bus
unchanged, and writes change nothing — even though `Cartridge::cpu_read`
itself would serve the range from PRG-RAM through the mapper, as the
concrete cartridge shows. -/
theorem claim_C4 (b : Bus) (address value : Nat)
    (h1 : 0x6000 ≤ address) (h2 : address ≤ 0x7FFF) :
    (b.cpu_read address).1 = 0
  ∧ (b.cpu_read address).2 = b
  ∧ b.cpu_write address value = b
  ∧ demo_cartridge.cpu_read 0x6000 = 0xAB
  ∧ (0xAB : Nat) ≠ 0 := by
  have hr : b.cpu_read address = (0, b) := by
    simp only [Bus.cpu_read]
    rw [if_neg (by omega), if_neg (by omega), if_neg (by omega), if_neg (by omega),
      if_neg (by omega)]
  have hw : b.cpu_write address value = b := by
    simp only [Bus.cpu_write]
    rw [if_neg (by omega), if_neg (by omega), if_neg (by omega), if_neg (by omega),
      if_neg (by omega), if_neg (by omega)]
  exact ⟨by rw [hr], by rw [hr], hw, by decide, by decide⟩

/-- A concrete bus wired to the demo cartridge, all other state zeroed. -/
def bus0 : Bus :=
  { cpu_ram := fun _ => 0, ppu_read_response := fun _ => 0,
    apu_read_response := fun _ => 0, ppu_writes := [], apu_writes := [],
    cartridge := demo_cartridge, controllers := fun _ => 0,
    controllers_state := fun _ => 0, dma_page := 0, dma_address := 0,
    dma_data := 0, dma_queued := false, dma_running := false, global_cycles := 0 }

/-- C4 witness: the dispatch evaluated at address `0x6000` on the concrete
bus holding the demo cartridge. -/
theorem claim_C4_witness :
    (bus0.cpu_read 0x6000).1 = 0
  ∧ (bus0.cpu_read 0x6000).2 = bus0
  ∧ bus0.cpu_write 0x6000 7 = bus0
  ∧ demo_cartridge.cpu_read 0x6000 = 0xAB
  ∧ (0xAB : Nat) ≠ 0 :=
  claim_C4 bus0 0x6000 7 (by norm_num) (by norm_num)

/-! ## PPU registers and the CPU-side write handler (src/src/ppu.rs) -/

/-- `PPUCTRL` (src/src/ppu.rs lines 9-23). -/
structure PPUCTRL where
  nametable_x : Bool
  nametable_y : Bool
  increment_mode : Bool
  sprite_tile_select : Bool
  background_tile_select : Bool
  sprite_size : Bool
  slave_mode : Bool
  enable_nmi : Bool
deriving DecidableEq

/-- `PPUCTRL::set_from_u8` (src/src/ppu.rs lines 37-46). -/
def PPUCTRL.set_from_u8 (byte : Nat) : PPUCTRL where
  nametable_x := byte &&& (1 <<< 0) ≠ 0
  nametable_y := byte &&& (1 <<< 1) ≠ 0
  increment_mode := byte &&& (1 <<< 2) ≠ 0
  sprite_tile_select := byte &&& (1 <<< 3) ≠ 0
  background_tile_select := byte &&& (1 <<< 4) ≠ 0
  sprite_size := byte &&& (1 <<< 5) ≠ 0
  slave_mode := byte &&& (1 <<< 6) ≠ 0
  enable_nmi := byte &&& (1 <<< 7) ≠ 0

/-- `PPUMASK` (src/src/ppu.rs lines 49-59). -/
structure PPUMASK where
  greyscale : Bool
  background_left_column_enable : Bool
  sprite_left_column_enable : Bool
  background_enable : Bool
  sprite_enable : Bool
  color_emphasis_red : Bool
  color_emphasis_green : Bool
  color_emphasis_blue : Bool
deriving DecidableEq

/-- `PPUMASK::set_from_u8` (src/src/ppu.rs lines 73-82). -/
def PPUMASK.set_from_u8 (byte : Nat) : PPUMASK where
  greyscale := byte &&& (1 <<< 0) ≠ 0
  background_left_column_enable := byte &&& (1 <<< 1) ≠ 0
  sprite_left_column_enable := byte &&& (1 <<< 2) ≠ 0
  background_enable := byte &&& (1 <<< 3) ≠ 0
  sprite_enable := byte &&& (1 <<< 4) ≠ 0
  color_emphasis_red := byte &&& (1 <<< 5) ≠ 0
  color_emphasis_green := byte &&& (1 <<< 6) ≠ 0
  color_emphasis_blue := byte &&& (1 <<< 7) ≠ 0

/-- `PPUSTATUS` (src/src/ppu.rs lines 85-90). -/
structure PPUSTATUS where
  sprite_overflow : Bool
  sprite_zero_hit : Bool
  vertical_blank : Bool
deriving DecidableEq

/-- `PPUSTATUS::to_u8` (src/src/ppu.rs lines 93-97). -/
def PPUSTATUS.to_u8 (s : PPUSTATUS) : Nat :=
  (s.sprite_overflow.toNat <<< 5) ||| (s.sprite_zero_hit.toNat <<< 6) |||
    (s.vertical_blank.toNat <<< 7)

/-- `PPUInternal` (src/src/ppu.rs lines 147-160). -/
structure PPUInternal where
  v : Loopy
  t : Loopy
  fine_x : Nat
  write_latch : Bool
deriving DecidableEq

/-- `PPURegisters` (src/src/ppu.rs lines 162-173). -/
structure PPURegisters where
  ctrl : PPUCTRL
  mask : PPUMASK
  status : PPUSTATUS
  oam_address : Nat
  oam_data : Nat
  scroll : Nat
  address : Nat
  data : Nat
  internal : PPUInternal
deriving DecidableEq

/-- The PPU state touched by `PPU::cpu_write` and the PPU-bus write
(src/src/ppu.rs lines 213-244): the register file, primary OAM and its
address latch, the two nametable pages, palette RAM, the two pattern tables,
and the cartridge's nametable layout
(`cartridge.get_nametable_layout()`).  The rendering-pipeline fields, the
framebuffer and the read buffer are not touched by writes and are omitted. -/
structure PPU where
  registers : PPURegisters
  oam : Nat → OAMSprite
  oam_address : Nat
  nametables : Nat → Nat → Nat
  palette : Nat → Nat
  pattern : Nat → Nat → Nat
  mirroring : MirroringMode

/-- `PPU::ppu_write`, the PPU-bus write (src/src/ppu.rs lines 443-487).
`none` is a panicking arm: the final unreachable range check, and the
nametable arm for a layout other than Vertical/Horizontal — the source's
`match` lists only those two. -/
def PPU.ppu_write (p : PPU) (address value : Nat) : Option PPU :=
  let masked := address &&& 0x3FFF
  if masked ≤ 0x1FFF then
    some { p with pattern := fun t j =>
      if t = (masked &&& 0x1000) >>> 12 ∧ j = (masked &&& 0x0FFF) then value
      else p.pattern t j }
  else if 0x2000 ≤ masked ∧ masked ≤ 0x3EFF then
    let m := masked &&& 0x0FFF
    let writeNt : Nat → Option PPU := fun page =>
      some { p with nametables := fun q j =>
        if q = page ∧ j = (m &&& 0x03FF) then value else p.nametables q j }
    match p.mirroring with
    | MirroringMode.vertical =>
      if m ≤ 0x03FF then writeNt 0
      else if m ≤ 0x07FF then writeNt 1
      else if m ≤ 0x0BFF then writeNt 0
      else if m ≤ 0x0FFF then writeNt 1
      else none
    | MirroringMode.horizontal =>
      if m ≤ 0x03FF then writeNt 0
      else if m ≤ 0x07FF then writeNt 0
      else if m ≤ 0x0BFF then writeNt 1
      else if m ≤ 0x0FFF then writeNt 1
      else none
    | _ => none
  else if 0x3F00 ≤ masked ∧ masked ≤ 0x3FFF then
    let pm :=
      if address &&& 0x001F = 0x0010 then 0x0000
      else if address &&& 0x001F = 0x0014 then 0x0004
      else if address &&& 0x001F = 0x0018 then 0x0008
      else if address &&& 0x001F = 0x001C then 0x000C
      else address &&& 0x001F
    some { p with palette := fun j => if j = pm then value else p.palette j }
  else
    none

/-- `PPU::cpu_write`, the CPU-side register write handler (src/src/ppu.rs
lines 333-387), arm for arm over the register index 0-7.  `none` is a
panicking arm: register 2 (PPUSTATUS) executes
`panic!("Cannot write to PPU status register")`, and the default arm panics
on an out-of-range index. -/
def PPU.cpu_write (p : PPU) (address value : Nat) : Option PPU :=
  if address = 0x0000 then
    let ctrl := PPUCTRL.set_from_u8 value
    let t1 := p.registers.internal.t.set_nametable_x ctrl.nametable_x
    let t2 := t1.set_nametable_y ctrl.nametable_y
    some { p with registers := { p.registers with
      ctrl := ctrl, internal := { p.registers.internal with t := t2 } } }
  else if address = 0x0001 then
    some { p with registers := { p.registers with mask := PPUMASK.set_from_u8 value } }
  else if address = 0x0002 then
    none
  else if address = 0x0003 then
    some { p with oam_address := value }
  else if address = 0x0004 then
    let entry := p.oam (p.oam_address / 4)
    let put : OAMSprite → Option PPU := fun e =>
      some { p with oam := fun j => if j = p.oam_address / 4 then e else p.oam j }
    if p.oam_address % 4 = 0 then put { entry with y := value }
    else if p.oam_address % 4 = 1 then put { entry with id := value }
    else if p.oam_address % 4 = 2 then put { entry with attributes := OAMAttributes.set_from_u8 value }
    else if p.oam_address % 4 = 3 then put { entry with x := value }
    else none
  else if address = 0x0005 then
    if ¬p.registers.internal.write_latch then
      some { p with registers := { p.registers with internal := { p.registers.internal with
        fine_x := value &&& 0x07
        t := p.registers.internal.t.set_coarse_x (value >>> 3)
        write_latch := true } } }
    else
      let t1 := p.registers.internal.t.set_fine_y (value &&& 0x07)
      let t2 := t1.set_coarse_y (value >>> 3)
      some { p with registers := { p.registers with internal := { p.registers.internal with
        t := t2, write_latch := false } } }
  else if address = 0x0006 then
    if ¬p.registers.internal.write_latch then
      some { p with registers := { p.registers with internal := { p.registers.internal with
        t := p.registers.internal.t.set_address
          (((value &&& 0x3F) <<< 8) ||| (p.registers.internal.t.address &&& 0x00FF))
        write_latch := true } } }
    else
      let t1 := p.registers.internal.t.set_address
        ((p.registers.internal.t.address &&& 0xFF00) ||| value)
      some { p with registers := { p.registers with internal := { p.registers.internal with
        t := t1, v := p.registers.internal.v.set_address t1.address
        write_latch := false } } }
  else if address = 0x0007 then
    match p.ppu_write p.registers.internal.v.address value with
    | none => none
    | some p1 =>
      let increment := if p1.registers.ctrl.increment_mode then 32 else 1
      some { p1 with registers := { p1.registers with internal := { p1.registers.internal with
        v := p1.registers.internal.v.set_address
          ((p1.registers.internal.v.address + increment) % 65536) } } }
  else
    none

/-- A concrete power-on PPU state: default registers, zeroed memory,
vertical mirroring. -/
def ppu0 : PPU :=
  { registers :=
      { ctrl := PPUCTRL.set_from_u8 0, mask := PPUMASK.set_from_u8 0,
        status := ⟨false, false, false⟩, oam_address := 0, oam_data := 0,
        scroll := 0, address := 0, data := 0,
        internal := { v := loopy0, t := loopy0, fine_x := 0, write_latch := false } },
    oam := fun _ => OAMSprite.default, oam_address := 0,
    nametables := fun _ _ => 0, palette := fun _ => 0, pattern := fun _ _ => 0,
    mirroring := MirroringMode.vertical }

/-- C1: emulation is not total — a CPU write to the read-only PPUSTATUS
register (address $2002, which `Bus::cpu_write` routes to PPU register 2)
executes the explicit abort arm of `PPU::cpu_write` instead of acting as a
no-op, and the `NES6502::cmp` flag computation aborts on its unchecked `u8`
subtraction whenever the fetched operand exceeds the accumulator. -/
theorem claim_C1 :
    PPU.cpu_write ppu0 2 0 = none
  ∧ cmp_flags 0 1 Flags.default = none := by
  constructor
  · rfl
  · rfl

end SilkNES
